import Mathlib

/-!
# Verification of the task-generation pipeline (`generate_verilog_codes.py`)

Shallow embedding of the repository's single source file.  The script's
pure logic — the JSON-response sanitizer (`sanitize_json`), the task-file
store (`save_tasks_to_files`), the per-task report generation
(`generate_report_for_task`) and the report post-processing
(`process_task_files`) — is translated into executable Lean definitions.

Modelling conventions:
* Python strings are Lean `String`s, often manipulated through their
  underlying `List Char` (`String.data`); the whitespace set and digit set
  are the ASCII ones (the script's data is ASCII).
* JSON values (the result of `json.loads`) are the inductive `Json`;
  `json.loads` itself is a library function external to the repository and
  is passed in as an abstract `parse : String → Option Json` argument,
  `none` standing for a raised `json.JSONDecodeError`.
* Python `dict`s are association lists built with `dictInsert`
  (insert-or-overwrite, preserving first-insertion position), matching
  CPython's ordered-dict semantics; a dict produced by `json.loads` has
  pairwise-distinct keys.
* Raised exceptions are `Except PyErr`; filesystem writes are returned as
  `(filename, content)` pairs instead of being performed.
* Recursions that are not structural in Python (regex scanning,
  `str.replace`, `str.format`) take an explicit fuel argument initialised
  to the input length; each step consumes at least one character and one
  unit of fuel, so the fuel never runs out on the actual argument.
-/

/-- Exceptions that the modelled code paths can raise. -/
inductive PyErr where
  | indexError
  | attributeError
  | valueError
  | keyError
  deriving DecidableEq

/-- ASCII whitespace, the character class of Python's `str.strip()`,
`str.splitlines()` and the regex class `\s` on ASCII data. -/
def isWs (c : Char) : Bool :=
  c == ' ' || c == '\t' || c == '\n' || c == '\r' ||
  c == Char.ofNat 11 || c == Char.ofNat 12

/-- ASCII decimal digit, the character class of `str.isdigit()` and the
regex class `\d` on ASCII data. -/
def isDigitC (c : Char) : Bool :=
  48 ≤ c.toNat && c.toNat ≤ 57

/-- Python `str.strip()` on a character list. -/
def pyStripL (l : List Char) : List Char :=
  ((l.dropWhile isWs).reverse.dropWhile isWs).reverse

/-- Python `str.strip()`. -/
def pyStrip (s : String) : String :=
  ⟨pyStripL s.data⟩

/-- Python `str.isdigit()`: non-empty and all digits. -/
def pyIsdigit (s : String) : Bool :=
  !s.data.isEmpty && s.data.all isDigitC

/-- Python `str.splitlines()` restricted to `'\n'` separators (the only
line separator occurring in the script's data): splits at every newline
and does not produce a final empty piece for a trailing newline. -/
def pySplitlinesL : List Char → List (List Char)
  | [] => []
  | c :: rest =>
    if c = '\n' then [] :: pySplitlinesL rest
    else
      match pySplitlinesL rest with
      | [] => [[c]]
      | s :: ss => (c :: s) :: ss

/-- Python `"\n".join(...)` on character lists. -/
def joinNlL : List (List Char) → List Char
  | [] => []
  | [s] => s
  | s :: ss => s ++ '\n' :: joinNlL ss

/-- JSON values, the possible results of `json.loads`.  Numbers are
modelled as integers (the script never manipulates numeric values).
`obj` carries its entries in insertion order, as CPython dicts do. -/
inductive Json where
  | null
  | bool (b : Bool)
  | num (n : Int)
  | str (s : String)
  | arr (items : List Json)
  | obj (entries : List (String × Json))

mutual

/-- Python `repr()` of a value deserialised from JSON.  String `repr` is
modelled as plain single-quoting (the script's strings contain no quotes
to escape). -/
def pyReprJ : Json → String
  | .null => "None"
  | .bool true => "True"
  | .bool false => "False"
  | .num n => toString n
  | .str s => "'" ++ s ++ "'"
  | .arr items => "[" ++ pyReprList items ++ "]"
  | .obj es => "\x7b" ++ pyReprObj es ++ "\x7d"

/-- `repr` of a Python list body: comma-separated element `repr`s. -/
def pyReprList : List Json → String
  | [] => ""
  | [v] => pyReprJ v
  | v :: vs => pyReprJ v ++ ", " ++ pyReprList vs

/-- `repr` of a Python dict body: comma-separated `'key': value` pairs. -/
def pyReprObj : List (String × Json) → String
  | [] => ""
  | [(k, v)] => "'" ++ k ++ "': " ++ pyReprJ v
  | (k, v) :: kvs => "'" ++ k ++ "': " ++ pyReprJ v ++ ", " ++ pyReprObj kvs

end

/-- Python `str()` of a value deserialised from JSON: identity on strings,
`repr`-like rendering otherwise (matching `str` = `repr` for containers,
numbers, booleans and `None`). -/
def pyStr : Json → String
  | .str s => s
  | v => pyReprJ v

/-- JSON string quoting used by `json.dumps`: double quotes with the
common escapes. -/
def jsonEscL : List Char → List Char
  | [] => []
  | c :: cs =>
    (if c = '"' then ['\\', '"']
     else if c = '\\' then ['\\', '\\']
     else if c = '\n' then ['\\', 'n']
     else if c = '\t' then ['\\', 't']
     else if c = '\r' then ['\\', 'r']
     else [c]) ++ jsonEscL cs

/-- A JSON-quoted string literal as `json.dumps` renders it. -/
def jsonQuote (s : String) : String :=
  "\"" ++ String.mk (jsonEscL s.data) ++ "\""

/-- `2 * d` spaces: the indentation prefix `json.dumps(..., indent=2)`
puts in front of nesting depth `d`. -/
def indentSp (d : Nat) : String :=
  String.mk (List.replicate (2 * d) ' ')

mutual

/-- `json.dumps(v, indent=2)` at nesting depth `d`. -/
def dumpJ (d : Nat) : Json → String
  | .null => "null"
  | .bool true => "true"
  | .bool false => "false"
  | .num n => toString n
  | .str s => jsonQuote s
  | .arr [] => "[]"
  | .arr (v :: vs) => "[\n" ++ dumpList (d + 1) (v :: vs) ++ "\n" ++ indentSp d ++ "]"
  | .obj [] => "{}"
  | .obj (kv :: kvs) => "\x7b\n" ++ dumpEntries (d + 1) (kv :: kvs) ++ "\n" ++ indentSp d ++ "\x7d"

/-- Array elements, one per line, comma-separated. -/
def dumpList (d : Nat) : List Json → String
  | [] => ""
  | [v] => indentSp d ++ dumpJ d v
  | v :: vs => indentSp d ++ dumpJ d v ++ ",\n" ++ dumpList d vs

/-- Object entries, one per line, comma-separated. -/
def dumpEntries (d : Nat) : List (String × Json) → String
  | [] => ""
  | [(k, v)] => indentSp d ++ jsonQuote k ++ ": " ++ dumpJ d v
  | (k, v) :: kvs => indentSp d ++ jsonQuote k ++ ": " ++ dumpJ d v ++ ",\n" ++ dumpEntries d kvs

end

/-- `json.dumps(v, indent=2)`. -/
def jsonDumps (v : Json) : String :=
  dumpJ 0 v

/-- The decimal digit characters, for rendering numbers. -/
def digitChar10 : Nat → Char
  | 0 => '0' | 1 => '1' | 2 => '2' | 3 => '3' | 4 => '4'
  | 5 => '5' | 6 => '6' | 7 => '7' | 8 => '8' | _ => '9'

/-- Numeric value of a decimal digit character. -/
def dval (c : Char) : Nat :=
  c.toNat - 48

/-- Decimal digits of a positive number, most significant first
(fuel-driven; `fuel ≥ n` suffices since `n / 10 < n`). -/
def natChars : Nat → Nat → List Char
  | 0, _ => []
  | f + 1, n =>
    if n = 0 then []
    else natChars f (n / 10) ++ [digitChar10 (n % 10)]

/-- Python `str()` of a natural number (decimal rendering). -/
def pyStrNat (n : Nat) : String :=
  if n = 0 then "0" else ⟨natChars n n⟩

/-- Numeric value of a digit string, most significant digit first. -/
def valNatL (ds : List Char) : Nat :=
  ds.foldl (fun a c => 10 * a + dval c) 0

/-- Python `int(str)` for the strings the script feeds it: strip
whitespace, optional sign, then a non-empty run of decimal digits;
anything else raises `ValueError`, modelled as `none`. -/
def pyIntL (cs : List Char) : Option Int :=
  let core := fun (ds : List Char) (neg : Bool) =>
    if ds.isEmpty || !ds.all isDigitC then none
    else
      let n : Int := Int.ofNat (valNatL ds)
      some (if neg then -n else n)
  match pyStripL cs with
  | '-' :: ds => core ds true
  | '+' :: ds => core ds false
  | ds => core ds false

/-- Python `int(str)` (see `pyIntL`). -/
def pyInt (s : String) : Option Int :=
  pyIntL s.data

/-- CPython dict assignment `d[k] = v` on an insertion-ordered
association list: an existing key keeps its position and gets the new
value, a fresh key is appended. -/
def dictInsert (d : List (String × Json)) (k : String) (v : Json) : List (String × Json) :=
  if d.any (fun p => p.1 == k) then
    d.map (fun p => if p.1 == k then (k, v) else p)
  else d ++ [(k, v)]

/-- The re-keyed heading entry `f"# {key}\n\n{value}"` built at
`generate_verilog_codes.py:75` for a mapping with no numeric keys. -/
def mkHeading (kv : String × Json) : Json :=
  .str ("# " ++ kv.1 ++ "\n\n" ++ pyStr kv.2)

/-- The dict-shaping step of `sanitize_json`
(`generate_verilog_codes.py:63`–`86`) applied to a successfully parsed
JSON value: keep numeric keys if any exist, otherwise re-key a mapping
sequentially with `# key` headings; re-key a list sequentially; wrap
anything that produced no entries as a single pretty-printed task. -/
def processParsed (j : Json) : List (String × Json) :=
  let rd : List (String × Json) :=
    match j with
    | .obj kvs =>
      if kvs.any (fun kv => pyIsdigit kv.1) then
        kvs.foldl (fun acc kv => if pyIsdigit kv.1 then dictInsert acc kv.1 kv.2 else acc) []
      else
        kvs.enum.foldl (fun acc ikv => dictInsert acc (pyStrNat (ikv.1 + 1)) (mkHeading ikv.2)) []
    | .arr items =>
      items.enum.foldl (fun acc ii => dictInsert acc (pyStrNat (ii.1 + 1)) ii.2) []
    | _ => []
  if rd.isEmpty then [("1", .str (jsonDumps j))] else rd

/-- Anchored match of the regex `Task\s+(\d+):` at the head of the input:
literal `Task`, at least one whitespace, at least one digit, then `:`;
returns the digit capture and the remainder after the colon.  The three
greedy character classes are pairwise disjoint, so regex backtracking
never changes the outcome and this deterministic scan is exact. -/
def tryTask (l : List Char) : Option (List Char × List Char) :=
  if l.take 4 = ['T', 'a', 's', 'k'] then
    let rest := l.drop 4
    if (rest.takeWhile isWs).isEmpty then none
    else
      let r2 := rest.dropWhile isWs
      if (r2.takeWhile isDigitC).isEmpty then none
      else
        match r2.dropWhile isDigitC with
        | ':' :: r3 => some (r2.takeWhile isDigitC, r3)
        | _ => none
  else none

/-- Left-to-right scan underlying `re.split(r'Task\s+(\d+):', text)`:
returns the text before the first match and, for each match, the digit
capture paired with the text up to the next match.  Fuel-driven; each
step consumes at least one character, so `fuel = length` suffices (the
fuel-exhausted case is unreachable). -/
def scanGo : Nat → List Char → List Char × List (List Char × List Char)
  | 0, _ => ([], [])
  | _ + 1, [] => ([], [])
  | f + 1, c :: cs =>
    match tryTask (c :: cs) with
    | some p =>
      let r := scanGo f p.2
      ([], (p.1, r.1) :: r.2)
    | none =>
      let r := scanGo f cs
      (c :: r.1, r.2)

/-- `re.split(r'Task\s+(\d+):', text)` in structured form: head segment
plus `(capture, following segment)` pairs. -/
def scanTasks (cs : List Char) : List Char × List (List Char × List Char) :=
  scanGo cs.length cs

/-- A raw scan match as a string pair: the captured number and the
stripped following content (`task_sections[i]` and
`task_sections[i+1].strip()` at `generate_verilog_codes.py:100`–`101`). -/
def matchPair (p : List Char × List Char) : String × String :=
  (⟨p.1⟩, ⟨pyStripL p.2⟩)

/-- The matches of `Task\s+(\d+):` in a text, as
`(number, stripped following content)` string pairs. -/
def taskMatches (text : String) : List (String × String) :=
  (scanTasks text.data).2.map matchPair

/-- The fallback entry `f"# Task {task_num}:{task_content}"` keyed by the
captured number (`generate_verilog_codes.py:103`). -/
def fbEntry (m : String × String) : String × Json :=
  (m.1, .str ("# Task " ++ m.1 ++ ":" ++ m.2))

/-- The fallback-task dict built by the loop at
`generate_verilog_codes.py:99`–`103`: one entry per match with non-empty
stripped content, keyed by the captured number, valued
`f"# Task {task_num}:{task_content}"`; a repeated number overwrites in
place (dict assignment). -/
def buildFallback (ps : List (List Char × List Char)) : List (String × Json) :=
  ps.foldl
    (fun acc p =>
      let m := matchPair p
      if m.2 ≠ "" then dictInsert acc (fbEntry m).1 (fbEntry m).2 else acc)
    []

/-- The whole `except json.JSONDecodeError` arm of `sanitize_json`
(`generate_verilog_codes.py:93`–`112`): regex-split fallback on the
original text, else a single task `{"1": text}`. -/
def fallbackTasks (text : String) : List (String × Json) :=
  let ps := (scanTasks text.data).2
  if ps.isEmpty then [("1", .str text)]
  else
    let ft := buildFallback ps
    if ft.isEmpty then [("1", .str text)] else ft

/-- The candidate payload handed to `json.loads`
(`generate_verilog_codes.py:50`–`56`): if the first line strips to
`"```json"` and the last line strips to "```", drop both and join the
middle lines, then strip; otherwise the whole text stripped. -/
def cleanedText (text : String) : String :=
  match pySplitlinesL text.data with
  | [] => pyStrip text
  | l0 :: ls =>
    if pyStripL l0 = "```json".data ∧ pyStripL ((l0 :: ls).getLastD []) = "```".data then
      pyStrip ⟨joinNlL (((l0 :: ls).drop 1).dropLast)⟩
    else pyStrip text

/-- `sanitize_json(text)` (`generate_verilog_codes.py:46`–`112`) with the
external `json.loads` passed in as `parse` (`none` = `JSONDecodeError`).
On empty input `text.splitlines()` is empty and `lines[0]` raises an
uncaught `IndexError`; otherwise a parse failure takes the fallback arm
and a parse success is shaped by `processParsed`. -/
def sanitize_json (parse : String → Option Json) (text : String) :
    Except PyErr (List (String × Json)) :=
  match pySplitlinesL text.data with
  | [] => .error .indexError
  | _ :: _ =>
    match parse (cleanedText text) with
    | some j => .ok (processParsed j)
    | none => .ok (fallbackTasks text)

/-- `f"{n:03d}"`: decimal rendering left-padded with zeros to total width
3 (a sign counts towards the width, as in Python). -/
def pad3 (n : Int) : String :=
  let padTo := fun (w : Nat) (s : String) =>
    String.mk (List.replicate (w - s.data.length) '0') ++ s
  if n < 0 then "-" ++ padTo 2 (pyStrNat n.natAbs) else padTo 3 (pyStrNat n.toNat)

/-- The task filename `f"{today_str}_{num:03d}_task.md"`
(`generate_verilog_codes.py:129`/`152`). -/
def mkFname (today : String) (n : Int) : String :=
  today ++ "_" ++ pad3 n ++ "_task.md"

/-- The content written on the primary save path
(`generate_verilog_codes.py:133`–`141`): a dict is pretty-printed (and,
being then a `str`, stripped); a `str` is stripped; anything else —
including a list — is passed to `str()` unstripped. -/
def primaryContent : Json → String
  | .obj kvs => pyStrip (jsonDumps (.obj kvs))
  | .str s => pyStrip s
  | v => pyStr v

/-- The content written on the fallback save path
(`generate_verilog_codes.py:156`–`159`): dicts *and* lists are
pretty-printed; anything else is `str()`-ed and stripped. -/
def fallbackContent : Json → String
  | .obj kvs => jsonDumps (.obj kvs)
  | .arr items => jsonDumps (.arr items)
  | v => pyStrip (pyStr v)

/-- One iteration of the save loop (`generate_verilog_codes.py:125`–
`164`) given the number of files already saved: a key parsing as an
integer is saved under that number; a non-parsing key is skipped when it
is the literal `"tasks"` and otherwise saved under the fallback id
`len(saved_files) + 1`.  The returned writes are appended to
`saved_files`. -/
def saveStep (today : String) (nSaved : Nat) (k : String) (v : Json) :
    List (String × String) :=
  match pyInt k with
  | some n => [(mkFname today n, primaryContent v)]
  | none =>
    if k = "tasks" then []
    else [(mkFname today (Int.ofNat (nSaved + 1)), fallbackContent v)]

/-- The save loop, threading the list of files written so far (whose
length feeds the fallback id). -/
def saveLoop (today : String) (acc : List (String × String)) :
    List (String × Json) → List (String × String)
  | [] => acc
  | (k, v) :: rest => saveLoop today (acc ++ saveStep today acc.length k v) rest

/-- `save_tasks_to_files(task_dict)` (`generate_verilog_codes.py:117`–
`165`): the dated, numbered `(filename, content)` writes performed for a
task dict, in processing order.  The date string is a parameter; the
`DATA/` directory prefix is common to every file and omitted. -/
def save_tasks_to_files (today : String) (tasks : List (String × Json)) :
    List (String × String) :=
  saveLoop today [] tasks

/-- Python `str.format` restricted to the keyword argument
`task_content`, fuel-driven (see the header note).  `{{`/`}}` are brace
escapes; `{task_content}` substitutes the argument *verbatim* (braces in
the argument are not re-scanned); `{<digits>}` or `{}` raises
`IndexError` (no positional arguments are supplied); `{<other>}` raises
`KeyError`; an unmatched `{` or `}` raises `ValueError`.  Conversion and
format-spec suffixes (`!`/`:`) are accepted and ignored by the model. -/
def pyFormatGo (arg : List Char) : Nat → List Char → Except PyErr (List Char)
  | _, [] => .ok []
  | 0, _ :: _ => .ok []
  | f + 1, '{' :: '{' :: rest =>
    match pyFormatGo arg f rest with
    | .ok out => .ok ('{' :: out)
    | .error e => .error e
  | f + 1, '}' :: '}' :: rest =>
    match pyFormatGo arg f rest with
    | .ok out => .ok ('}' :: out)
    | .error e => .error e
  | f + 1, '{' :: rest =>
    let field := rest.takeWhile (fun c => !(c == '}'))
    match rest.dropWhile (fun c => !(c == '}')) with
    | '}' :: rest2 =>
      let name := field.takeWhile (fun c => !(c == ':') && !(c == '!'))
      if name = "task_content".data then
        match pyFormatGo arg f rest2 with
        | .ok out => .ok (arg ++ out)
        | .error e => .error e
      else if name.all isDigitC then .error .indexError
      else .error .keyError
    | _ => .error .valueError
  | _ + 1, '}' :: _ => .error .valueError
  | f + 1, c :: rest =>
    match pyFormatGo arg f rest with
    | .ok out => .ok (c :: out)
    | .error e => .error e

/-- `template.format(task_content=arg)` (see `pyFormatGo`). -/
def pyFormat (tmpl arg : String) : Except PyErr String :=
  match pyFormatGo arg.data tmpl.data.length tmpl.data with
  | .ok out => .ok ⟨out⟩
  | .error e => .error e

/-- The configuration values read from the environment by the report
path: `PROMPT_CODE` and `LLM_MODEL_SOLUTION` (`os.getenv` returns `None`
when unset, hence `Option`). -/
structure Config where
  promptCode : Option String
  modelSolution : Option String

/-- `generate_report_for_task` (`generate_verilog_codes.py:190`–`205`)
with the file's text passed in as `task_content` and the model client
passed in as `gen` (already `None`-on-failure, as `generate_with_ollama`
catches all its own errors).  The template lookup and interpolation at
lines 195–196 sit *outside* the `try`: a missing `PROMPT_CODE` makes
`None.format(...)` raise `AttributeError`, and interpolation errors also
escape.  Inside the `try`, an empty or absent response is caught and
becomes `None`. -/
def generate_report_for_task (cfg : Config)
    (gen : String → Option String → Option String) (task_content : String) :
    Except PyErr (Option String) :=
  match cfg.promptCode with
  | none => .error .attributeError
  | some tmpl =>
    match pyFormat tmpl task_content with
    | .error e => .error e
    | .ok prompt =>
      match gen prompt cfg.modelSolution with
      | none => .ok none
      | some s => if s = "" then .ok none else .ok (some s)

/-- Python `str.replace(pat, sub)` (all occurrences, left to right,
non-overlapping), fuel-driven.  An empty pattern never occurs in the
script. -/
def replaceGo (pat sub : List Char) : Nat → List Char → List Char
  | _, [] => []
  | 0, l => l
  | f + 1, c :: cs =>
    if !pat.isEmpty && (pat.isPrefixOf (c :: cs)) then
      sub ++ replaceGo pat sub f (List.drop pat.length (c :: cs))
    else c :: replaceGo pat sub f cs

/-- Python `str.replace(pat, sub)`. -/
def pyReplace (s pat sub : String) : String :=
  ⟨replaceGo pat.data sub.data s.data.length s.data⟩

/-- The report-cleaning step (`generate_verilog_codes.py:219`–`225`):
strip, drop a leading literal ```` ```markdown ```` then strip, drop a
trailing ```` ``` ```` then strip. -/
def cleanReport (s : String) : String :=
  let c1 := pyStrip s
  let c2 :=
    if "```markdown".data.isPrefixOf c1.data then pyStrip ⟨c1.data.drop 11⟩ else c1
  if "```".data.isSuffixOf c2.data then
    pyStrip ⟨c2.data.take (c2.data.length - 3)⟩
  else c2

/-- `process_task_files(task_files)` (`generate_verilog_codes.py:210`–
`231`) with `generate_report_for_task` abstracted to `report`: returns
the report-file writes performed, in order, together with the exception
that aborted the loop, if any.  A `None`/empty report is logged and
skipped; an exception raised by `report` propagates out of the `for`
loop, discarding all remaining files. -/
def process_task_files (report : String → Except PyErr (Option String)) :
    List String → List (String × String) × Option PyErr
  | [] => ([], none)
  | f :: rest =>
    match report f with
    | .error e => ([], some e)
    | .ok none => process_task_files report rest
    | .ok (some s) =>
      if s = "" then process_task_files report rest
      else
        let r := process_task_files report rest
        ((pyReplace f "_task" "_output", cleanReport s) :: r.1, r.2)

/-! ## Basic lemmas about the embedding -/

theorem data_ne_nil {s : String} (h : s ≠ "") : s.data ≠ [] :=
  fun hd => h (congrArg String.mk hd)

theorem pySplitlinesL_ne_nil {cs : List Char} (h : cs ≠ []) : pySplitlinesL cs ≠ [] := by
  match cs with
  | c :: rest =>
    unfold pySplitlinesL
    by_cases hc : c = '\n'
    · simp [hc]
    · simp only [if_neg hc]
      cases h2 : pySplitlinesL rest <;> simp

/-- For non-empty input, `sanitize_json` gets past the `lines[0]` access
and dispatches on the parse outcome. -/
theorem sanitize_json_eq (parse : String → Option Json) (text : String) (h : text ≠ "") :
    sanitize_json parse text =
      match parse (cleanedText text) with
      | some j => .ok (processParsed j)
      | none => .ok (fallbackTasks text) := by
  obtain ⟨l0, ls, hl⟩ := List.exists_cons_of_ne_nil (pySplitlinesL_ne_nil (data_ne_nil h))
  unfold sanitize_json
  rw [hl]

/-- `sanitize_json` on a successful parse. -/
theorem sanitize_json_parse_some {parse : String → Option Json} {text : String} {j : Json}
    (h : text ≠ "") (hP : parse (cleanedText text) = some j) :
    sanitize_json parse text = .ok (processParsed j) := by
  rw [sanitize_json_eq parse text h, hP]

/-- `sanitize_json` on a parse failure. -/
theorem sanitize_json_parse_none {parse : String → Option Json} {text : String}
    (h : text ≠ "") (hP : parse (cleanedText text) = none) :
    sanitize_json parse text = .ok (fallbackTasks text) := by
  rw [sanitize_json_eq parse text h, hP]

theorem dictInsert_fresh (d : List (String × Json)) (k : String) (v : Json)
    (h : ∀ q ∈ d, q.1 ≠ k) : dictInsert d k v = d ++ [(k, v)] := by
  have ha : d.any (fun p => p.1 == k) = false := by
    rw [List.any_eq_false]
    intro p hp
    simpa using h p hp
  unfold dictInsert
  simp [ha]

/-- Folding dict assignment over pairwise-fresh, Nodup-keyed entries is
list append: the CPython-dict model degenerates to ordered append when
no key collides. -/
theorem foldl_dictInsert_eq_append (ps : List (String × Json)) :
    ∀ acc, (ps.map Prod.fst).Nodup → (∀ p ∈ ps, ∀ q ∈ acc, q.1 ≠ p.1) →
      ps.foldl (fun a p => dictInsert a p.1 p.2) acc = acc ++ ps := by
  induction ps with
  | nil => intro acc _ _; simp
  | cons p ps ih =>
    intro acc hN hF
    simp only [List.map_cons, List.nodup_cons] at hN
    simp only [List.foldl_cons]
    rw [dictInsert_fresh acc p.1 p.2 (fun q hq => hF p (by simp) q hq)]
    rw [ih (acc ++ [p]) hN.2]
    · simp
    · intro p' hp' q hq
      rcases List.mem_append.mp hq with hq | hq
      · exact hF p' (List.mem_cons_of_mem _ hp') q hq
      · have hq' : q = p := by simpa using hq
        subst hq'
        intro hkey
        exact hN.1 (hkey ▸ List.mem_map_of_mem Prod.fst hp')

/-- The conditional digit-keyed fold at `generate_verilog_codes.py:69`–
`71` equals an unconditional fold over the digit-keyed entries. -/
theorem foldl_digit_insert (kvs : List (String × Json)) :
    ∀ acc,
      kvs.foldl (fun acc kv => if pyIsdigit kv.1 then dictInsert acc kv.1 kv.2 else acc) acc =
        (kvs.filter (fun kv => pyIsdigit kv.1)).foldl (fun a p => dictInsert a p.1 p.2) acc := by
  induction kvs with
  | nil => intro acc; rfl
  | cons kv kvs ih =>
    intro acc
    cases h : pyIsdigit kv.1 <;> simp [List.filter_cons, h, ih]

theorem map_fst_filter (P : String → Bool) (l : List (String × Json)) :
    (l.filter (fun kv => P kv.1)).map Prod.fst = (l.map Prod.fst).filter P := by
  induction l with
  | nil => rfl
  | cons kv l ih => cases h : P kv.1 <;> simp [List.filter_cons, h, ih]

/-! ## C1 -/

/-- C1: for a JSON object parsed by `sanitize_json` that has at least one
all-digit key (with distinct keys, as `json.loads` guarantees), the
output is exactly the digit-keyed entries, values unchanged, in input
order; when every key is a digit string the output equals the input. -/
theorem claim_C1 (parse : String → Option Json) (text : String)
    (kvs : List (String × Json)) (hT : text ≠ "")
    (hP : parse (cleanedText text) = some (Json.obj kvs))
    (hN : (kvs.map Prod.fst).Nodup)
    (hD : ∃ kv ∈ kvs, pyIsdigit kv.1 = true) :
    sanitize_json parse text = .ok (kvs.filter (fun kv => pyIsdigit kv.1)) ∧
      ((∀ kv ∈ kvs, pyIsdigit kv.1 = true) → sanitize_json parse text = .ok kvs) := by
  have hAny : kvs.any (fun kv => pyIsdigit kv.1) = true := List.any_eq_true.mpr hD
  have hproc : processParsed (Json.obj kvs) = kvs.filter (fun kv => pyIsdigit kv.1) := by
    have hfil : ((kvs.filter (fun kv => pyIsdigit kv.1)).map Prod.fst).Nodup := by
      rw [map_fst_filter]
      exact hN.filter _
    have hne : (kvs.filter (fun kv => pyIsdigit kv.1)) ≠ [] := by
      obtain ⟨kv, hmem, hkv⟩ := hD
      exact List.ne_nil_of_mem (List.mem_filter.mpr ⟨hmem, hkv⟩)
    unfold processParsed
    simp only [hAny, if_true]
    rw [foldl_digit_insert, foldl_dictInsert_eq_append _ _ hfil (by simp)]
    simp only [List.nil_append]
    simp [List.isEmpty_iff, hne]
  have hmain : sanitize_json parse text = .ok (kvs.filter (fun kv => pyIsdigit kv.1)) := by
    rw [sanitize_json_parse_some hT hP, hproc]
  refine ⟨hmain, fun hall => ?_⟩
  rw [hmain, List.filter_eq_self.mpr hall]

/-- Witness for C1 at a concrete mixed-key object. -/
theorem claim_C1_witness :
    sanitize_json (fun _ => some (Json.obj [("1", Json.str "a"), ("name", Json.str "b")]))
        "t" = .ok [("1", Json.str "a")] := by
  have h := claim_C1 (fun _ => some (Json.obj [("1", Json.str "a"), ("name", Json.str "b")]))
    "t" [("1", Json.str "a"), ("name", Json.str "b")]
    (by decide) rfl (by decide) (by decide)
  rw [h.1]
  rfl

/-! ## C2 -/

/-- C2 counterexample: on the empty input — on which JSON parsing fails
and the `Task <number>:` split yields nothing — `sanitize_json` does not
return `{"1": ""}`: `"".splitlines()` is empty and `lines[0]` raises an
uncaught `IndexError`. -/
theorem claim_C2_cex :
    sanitize_json (fun _ => none) "" = .error .indexError ∧
      ∀ r, sanitize_json (fun _ => none) "" ≠ .ok r := by
  have h0 : sanitize_json (fun _ => none) "" = .error .indexError := rfl
  refine ⟨h0, fun r h => ?_⟩
  rw [h0] at h
  exact Except.noConfusion h

/-- C2 (amended): for every *non-empty* input text on which JSON parsing
fails and on which the `Task <number>:` fallback yields no usable
entries, `sanitize_json` returns exactly `{"1": text}` with the input
unchanged, and no parse error escapes. -/
theorem claim_C2 (parse : String → Option Json) (text : String) (hT : text ≠ "")
    (hP : parse (cleanedText text) = none)
    (hF : buildFallback (scanTasks text.data).2 = []) :
    sanitize_json parse text = .ok [("1", Json.str text)] := by
  rw [sanitize_json_parse_none hT hP]
  unfold fallbackTasks
  by_cases hps : (scanTasks text.data).2.isEmpty
  · simp [hps]
  · simp [hps, hF]

/-- Witness for C2 on a concrete unparseable text with no task markers. -/
theorem claim_C2_witness :
    sanitize_json (fun _ => none) "garbage" = .ok [("1", Json.str "garbage")] :=
  claim_C2 (fun _ => none) "garbage" (by decide) rfl rfl

/-! ## C3 -/

theorem map_fst_map_fbEntry (l : List (String × String)) :
    (l.map fbEntry).map Prod.fst = l.map Prod.fst := by
  induction l with
  | nil => rfl
  | cons m l ih => simp [fbEntry, ih]

/-- The conditional fallback fold equals an unconditional dict fold over
the kept, formatted matches. -/
theorem foldl_fb_insert (ps : List (List Char × List Char)) :
    ∀ acc,
      ps.foldl
          (fun acc p =>
            let m := matchPair p
            if m.2 ≠ "" then dictInsert acc (fbEntry m).1 (fbEntry m).2 else acc) acc =
        (((ps.map matchPair).filter (fun m => m.2 ≠ "")).map fbEntry).foldl
          (fun a p => dictInsert a p.1 p.2) acc := by
  induction ps with
  | nil => intro acc; rfl
  | cons p ps ih =>
    intro acc
    rw [List.foldl_cons, List.map_cons, List.filter_cons]
    dsimp only
    by_cases h : (matchPair p).2 ≠ ""
    · rw [if_pos h, if_pos (decide_eq_true h), List.map_cons, List.foldl_cons]
      exact ih _
    · rw [if_neg h, if_neg (by simpa using h)]
      exact ih _

/-- With pairwise-distinct captured numbers, the fallback dict is exactly
the kept matches, formatted, in match order. -/
theorem buildFallback_eq (ps : List (List Char × List Char))
    (hN : ((ps.map matchPair).map Prod.fst).Nodup) :
    buildFallback ps = ((ps.map matchPair).filter (fun m => m.2 ≠ "")).map fbEntry := by
  unfold buildFallback
  rw [foldl_fb_insert]
  rw [foldl_dictInsert_eq_append _ _ ?keys (by simp)]
  · simp
  case keys =>
    rw [map_fst_map_fbEntry]
    exact hN.sublist ((List.filter_sublist _).map _)

/-- C3 counterexample: on `"Task 3: a Task 3: b"` — not valid JSON, two
matches of `Task <number>:` both with non-empty following content — the
fallback does *not* produce one entry per such match: the second entry
overwrites the first in the dict, leaving a single entry. -/
theorem claim_C3_cex :
    sanitize_json (fun _ => none) "Task 3: a Task 3: b" =
        .ok [("3", Json.str "# Task 3:b")] ∧
      ((taskMatches "Task 3: a Task 3: b").filter (fun m => m.2 ≠ "")).length = 2 := by
  exact ⟨rfl, rfl⟩

/-- C3 (amended): for input text that does not parse as JSON and contains
matches of `Task <number>:`, *provided the matched numbers are pairwise
distinct* and at least one match has non-empty following content, the
result has exactly one entry per match with non-empty content, keyed by
the matched number, valued `"# Task <number>:" ++ trimmed content`
(`fbEntry`), in match order. -/
theorem claim_C3 (parse : String → Option Json) (text : String)
    (hP : parse (cleanedText text) = none)
    (hN : ((taskMatches text).map Prod.fst).Nodup)
    (hU : (taskMatches text).filter (fun m => m.2 ≠ "") ≠ []) :
    sanitize_json parse text =
      .ok (((taskMatches text).filter (fun m => m.2 ≠ "")).map fbEntry) := by
  have hms : taskMatches text ≠ [] := by
    intro h
    apply hU
    rw [h]
    rfl
  have hT : text ≠ "" := by
    intro h
    apply hms
    rw [h]
    rfl
  have hps : (scanTasks text.data).2 ≠ [] := by
    intro h
    apply hms
    unfold taskMatches
    rw [h]
    rfl
  have hbf := buildFallback_eq (scanTasks text.data).2
    (by have h := hN; unfold taskMatches at h; exact h)
  unfold taskMatches at hU ⊢
  rw [sanitize_json_parse_none hT hP]
  simp only [fallbackTasks]
  obtain ⟨p, ps', hps'⟩ := List.exists_cons_of_ne_nil hps
  rw [hps'] at hbf hU ⊢
  simp only [List.isEmpty_cons, Bool.false_eq_true, if_false]
  rw [hbf]
  have hmne : ((((p :: ps').map matchPair).filter (fun m => m.2 ≠ "")).map fbEntry) ≠ [] :=
    fun h => hU (List.map_eq_nil_iff.mp h)
  obtain ⟨q, qs, hq⟩ := List.exists_cons_of_ne_nil hmne
  rw [hq]
  simp only [List.isEmpty_cons, Bool.false_eq_true, if_false]

/-- Witness for C3 on a concrete malformed text with two task markers. -/
theorem claim_C3_witness :
    sanitize_json (fun _ => none) "xx Task 3: alpha Task 7: beta" =
      .ok (((taskMatches "xx Task 3: alpha Task 7: beta").filter
          (fun m => m.2 ≠ "")).map fbEntry) :=
  claim_C3 (fun _ => none) "xx Task 3: alpha Task 7: beta" rfl (by decide) (by decide)

/-! ## C4 -/

theorem dval_digitChar10 {d : Nat} (h : d < 10) : dval (digitChar10 d) = d := by
  interval_cases d <;> rfl

theorem valNatL_append_digit (xs : List Char) (c : Char) :
    valNatL (xs ++ [c]) = 10 * valNatL xs + dval c := by
  unfold valNatL
  rw [List.foldl_append]
  rfl

/-- Decimal rendering round-trips through digit-string evaluation. -/
theorem valNatL_natChars : ∀ f n, n ≤ f → valNatL (natChars f n) = n := by
  intro f
  induction f with
  | zero =>
    intro n hn
    interval_cases n
    rfl
  | succ f ih =>
    intro n hn
    unfold natChars
    by_cases h0 : n = 0
    · simp [h0, valNatL]
    · rw [if_neg h0, valNatL_append_digit, ih (n / 10) ?_,
        dval_digitChar10 (Nat.mod_lt _ (by norm_num)), Nat.div_add_mod]
      have : n / 10 < n := Nat.div_lt_self (Nat.pos_of_ne_zero h0) (by norm_num)
      omega

/-- `str()` is injective on positive numbers. -/
theorem pyStrNat_inj_pos {m n : Nat} (hm : 0 < m) (hn : 0 < n)
    (h : pyStrNat m = pyStrNat n) : m = n := by
  unfold pyStrNat at h
  rw [if_neg (Nat.pos_iff_ne_zero.mp hm), if_neg (Nat.pos_iff_ne_zero.mp hn)] at h
  have hl : natChars m m = natChars n n := by
    injection h
  calc m = valNatL (natChars m m) := (valNatL_natChars m m le_rfl).symm
    _ = valNatL (natChars n n) := by rw [hl]
    _ = n := valNatL_natChars n n le_rfl

/-- The enumerate-and-insert fold equals a dict fold over the built
`(str(i+1), heading)` pairs. -/
theorem foldl_enum_insert (l : List (Nat × (String × Json))) :
    ∀ acc,
      l.foldl (fun acc ikv => dictInsert acc (pyStrNat (ikv.1 + 1)) (mkHeading ikv.2)) acc =
        (l.map (fun ikv => (pyStrNat (ikv.1 + 1), mkHeading ikv.2))).foldl
          (fun a p => dictInsert a p.1 p.2) acc := by
  induction l with
  | nil => intro acc; rfl
  | cons ikv l ih => intro acc; simp only [List.foldl_cons, List.map_cons]; exact ih _

/-- The keys `str(1) .. str(N)` produced by the enumerate branch are
pairwise distinct. -/
theorem enum_keys_nodup (kvs : List (String × Json)) :
    ((kvs.enum.map (fun ikv => (pyStrNat (ikv.1 + 1), mkHeading ikv.2))).map Prod.fst).Nodup := by
  have h1 : (kvs.enum.map (fun ikv => (pyStrNat (ikv.1 + 1), mkHeading ikv.2))).map Prod.fst
      = (List.range kvs.length).map (fun i => pyStrNat (i + 1)) := by
    rw [List.map_map]
    have h2 : (Prod.fst ∘ fun ikv : Nat × (String × Json) =>
        (pyStrNat (ikv.1 + 1), mkHeading ikv.2)) = fun ikv => pyStrNat (ikv.1 + 1) := rfl
    rw [h2, show (fun ikv : Nat × (String × Json) => pyStrNat (ikv.1 + 1)) =
      ((fun i => pyStrNat (i + 1)) ∘ Prod.fst) from rfl]
    rw [← List.map_map, List.enum_map_fst]
  rw [h1]
  exact (List.nodup_range _).map_on (fun i _ j _ hij => by
    have := pyStrNat_inj_pos (Nat.succ_pos i) (Nat.succ_pos j) hij
    omega)

/-- C4 counterexample: the empty JSON object has zero digit-string keys
and zero entries, so the claim asserts an empty output mapping; the code
instead wraps the pretty-printed empty object as the single task
`{"1": "{}"}`. -/
theorem claim_C4_cex :
    sanitize_json (fun _ => some (Json.obj [])) "x" = .ok [("1", Json.str "{}")] ∧
      ([("1", Json.str "{}")] : List (String × Json)).length ≠ 0 := by
  constructor
  · rw [sanitize_json_parse_some (by decide) rfl]
    simp [processParsed, jsonDumps, dumpJ]
  · simp

/-- C4 (amended): for every *non-empty* JSON object input with zero
digit-string keys (keys distinct, as `json.loads` guarantees), the output
re-keys the entries `"1"` .. `"N"` in insertion order, the `i`-th value
being `"# " ++ key ++ "\n\n" ++ str(value)` (`mkHeading`). -/
theorem claim_C4 (parse : String → Option Json) (text : String)
    (kvs : List (String × Json)) (hT : text ≠ "")
    (hP : parse (cleanedText text) = some (Json.obj kvs))
    (hZ : ∀ kv ∈ kvs, pyIsdigit kv.1 = false)
    (hNE : kvs ≠ []) :
    sanitize_json parse text =
      .ok (kvs.enum.map (fun ikv => (pyStrNat (ikv.1 + 1), mkHeading ikv.2))) := by
  rw [sanitize_json_parse_some hT hP]
  unfold processParsed
  have hAny : kvs.any (fun kv => pyIsdigit kv.1) = false := by
    rw [List.any_eq_false]
    intro kv hkv
    simp [hZ kv hkv]
  simp only [hAny, Bool.false_eq_true, if_false]
  rw [foldl_enum_insert, foldl_dictInsert_eq_append _ _ (enum_keys_nodup kvs) (by simp),
    List.nil_append]
  have hne : kvs.enum.map (fun ikv => (pyStrNat (ikv.1 + 1), mkHeading ikv.2)) ≠ [] := by
    obtain ⟨kv, kvs', hkv⟩ := List.exists_cons_of_ne_nil hNE
    subst hkv
    simp [List.enum]
  obtain ⟨q, qs, hq⟩ := List.exists_cons_of_ne_nil hne
  rw [hq]
  simp only [List.isEmpty_cons, Bool.false_eq_true, if_false]

/-- Witness for C4 at a concrete one-entry object with a prose key. -/
theorem claim_C4_witness :
    sanitize_json (fun _ => some (Json.obj [("Intro", Json.str "hello")])) "t" =
      .ok ([("Intro", Json.str "hello")].enum.map
        (fun ikv => (pyStrNat (ikv.1 + 1), mkHeading ikv.2))) :=
  claim_C4 (fun _ => some (Json.obj [("Intro", Json.str "hello")])) "t"
    [("Intro", Json.str "hello")] (by decide) rfl (by decide) (List.cons_ne_nil _ _)

/-! ## C5 -/

/-- C5 counterexample: a list-valued task with a numeric key takes the
primary save path, where only dicts are JSON-serialized: the list is
written as Python `str()` output `['a']`, not as indented JSON text. -/
theorem claim_C5_cex :
    save_tasks_to_files "D" [("1", Json.arr [Json.str "a"])] =
        [("D_001_task.md", "['a']")] ∧
      "['a']" ≠ jsonDumps (Json.arr [Json.str "a"]) := by
  have h1 : primaryContent (Json.arr [Json.str "a"]) = "['a']" := by
    simp [primaryContent, pyStr, pyReprJ, pyReprList]
  have h2 : jsonDumps (Json.arr [Json.str "a"]) = "[\n  \"a\"\n]" := by
    simp [jsonDumps, dumpJ, dumpList, jsonQuote, jsonEscL, indentSp]
  constructor
  · calc save_tasks_to_files "D" [("1", Json.arr [Json.str "a"])]
        = [(mkFname "D" 1, primaryContent (Json.arr [Json.str "a"]))] := rfl
      _ = [("D_001_task.md", "['a']")] := by rw [h1]; decide
  · rw [h2]
    decide

/-- C5 (amended): on the primary save path (integer-parsing key) a
mapping value is written as indented JSON text (then stripped, being a
`str`), a plain-text value is written stripped, and any *other* value —
sequences included — is written via `str()`. -/
theorem claim_C5 (today : String) (acc : List (String × String)) (k : String) (v : Json)
    (rest : List (String × Json)) (n : Int) (hk : pyInt k = some n) :
    saveLoop today acc ((k, v) :: rest) =
      saveLoop today (acc ++ [(mkFname today n, primaryContent v)]) rest ∧
    (∀ kvs, primaryContent (Json.obj kvs) = pyStrip (jsonDumps (Json.obj kvs))) ∧
    (∀ s, primaryContent (Json.str s) = pyStrip s) ∧
    (∀ items, primaryContent (Json.arr items) = pyStr (Json.arr items)) ∧
    (∀ m : Int, primaryContent (Json.num m) = pyStr (Json.num m)) := by
  refine ⟨?_, fun _ => rfl, fun _ => rfl, fun _ => rfl, fun _ => rfl⟩
  show saveLoop today (acc ++ saveStep today acc.length k v) rest = _
  unfold saveStep
  rw [hk]

/-- Witness for C5 at a concrete string-valued task. -/
theorem claim_C5_witness :
    saveLoop "D" [] [("2", Json.str " x ")] =
      saveLoop "D" ([] ++ [(mkFname "D" 2, primaryContent (Json.str " x "))]) [] ∧
    (∀ kvs, primaryContent (Json.obj kvs) = pyStrip (jsonDumps (Json.obj kvs))) ∧
    (∀ s, primaryContent (Json.str s) = pyStrip s) ∧
    (∀ items, primaryContent (Json.arr items) = pyStr (Json.arr items)) ∧
    (∀ m : Int, primaryContent (Json.num m) = pyStr (Json.num m)) :=
  claim_C5 "D" [] "2" (Json.str " x ") [] 2 (by decide)

/-! ## C6 -/

/-- C6 counterexample: with tasks keyed `"5"` then `"abc"`, the primary
save produces `..._005_task.md`, and the fallback id for `"abc"` is
`len(saved_files) + 1 = 2` — so the fallback file is `..._002_task.md`,
which does *not* come after the last successfully numbered task (5). -/
theorem claim_C6_cex :
    save_tasks_to_files "D" [("5", Json.str "x"), ("abc", Json.str "y")] =
        [("D_005_task.md", "x"), ("D_002_task.md", "y")] ∧ (2 : Nat) < 5 := by
  exact ⟨rfl, by norm_num⟩

/-- C6 (amended): a fallback save (non-integer key other than `"tasks"`)
uses the sequence id `len(saved_files) + 1`, i.e. one more than the
*count* of files already saved in this run — not a successor of the last
numbered task's id. -/
theorem claim_C6 (today : String) (acc : List (String × String)) (k : String) (v : Json)
    (rest : List (String × Json)) (hk : pyInt k = none) (hkt : k ≠ "tasks") :
    saveLoop today acc ((k, v) :: rest) =
      saveLoop today
        (acc ++ [(mkFname today (Int.ofNat (acc.length + 1)), fallbackContent v)]) rest := by
  show saveLoop today (acc ++ saveStep today acc.length k v) rest = _
  unfold saveStep
  rw [hk, if_neg hkt]

/-- Witness for C6 with one file already saved: the fallback id is 2. -/
theorem claim_C6_witness :
    saveLoop "D" [("D_005_task.md", "x")] [("abc", Json.str "y")] =
      saveLoop "D" ([("D_005_task.md", "x")] ++
        [(mkFname "D" (Int.ofNat ([("D_005_task.md", "x")].length + 1)),
          fallbackContent (Json.str "y"))]) [] :=
  claim_C6 "D" [("D_005_task.md", "x")] "abc" (Json.str "y") [] (by decide) (by decide)

/-! ## C7 -/

theorem saveLoop_append (today : String) (xs : List (String × Json)) :
    ∀ ys acc, saveLoop today acc (xs ++ ys) = saveLoop today (saveLoop today acc xs) ys := by
  induction xs with
  | nil => intro ys acc; rfl
  | cons kv xs ih =>
    intro ys acc
    cases kv with
    | mk k v => exact ih ys (acc ++ saveStep today acc.length k v)

/-- C7: an entry whose key does not parse as an integer is skipped from
the primary path; if the key is the literal `"tasks"` it is skipped
outright and produces no file, and otherwise it is saved through the
fallback path with sequence number `(number of files already saved) + 1`,
still producing exactly one file. -/
theorem claim_C7 (today : String) (pre post : List (String × Json)) (k : String) (v : Json)
    (hk : pyInt k = none) :
    (k = "tasks" →
      save_tasks_to_files today (pre ++ (k, v) :: post) =
        save_tasks_to_files today (pre ++ post)) ∧
    (k ≠ "tasks" →
      save_tasks_to_files today (pre ++ (k, v) :: post) =
        saveLoop today (save_tasks_to_files today pre ++
          [(mkFname today (Int.ofNat ((save_tasks_to_files today pre).length + 1)),
            fallbackContent v)]) post) := by
  unfold save_tasks_to_files
  constructor
  · intro hkt
    subst hkt
    rw [saveLoop_append, saveLoop_append]
    show saveLoop today (saveLoop today [] pre ++ saveStep today _ "tasks" v) post = _
    unfold saveStep
    rw [hk, if_pos rfl]
    simp
  · intro hkt
    rw [saveLoop_append]
    show saveLoop today (saveLoop today [] pre ++ saveStep today _ k v) post = _
    unfold saveStep
    rw [hk, if_neg hkt]

/-- Witness for C7: a `"tasks"` entry yields no file; an `"abc"` entry
yields one fallback file numbered `count + 1`. -/
theorem claim_C7_witness :
    save_tasks_to_files "D" [("1", Json.str "a"), ("tasks", Json.str "t")] =
        save_tasks_to_files "D" [("1", Json.str "a")] ∧
    save_tasks_to_files "D" [("1", Json.str "a"), ("abc", Json.str "y")] =
        saveLoop "D" (save_tasks_to_files "D" [("1", Json.str "a")] ++
          [(mkFname "D" (Int.ofNat ((save_tasks_to_files "D" [("1", Json.str "a")]).length + 1)),
            fallbackContent (Json.str "y"))]) [] := by
  constructor
  · exact (claim_C7 "D" [("1", Json.str "a")] [] "tasks" (Json.str "t") (by decide)).1 rfl
  · exact (claim_C7 "D" [("1", Json.str "a")] [] "abc" (Json.str "y") (by decide)).2 (by decide)

/-! ## C8 -/

/-- C8 counterexample: with `PROMPT_CODE` unset, `os.getenv` yields
`None` and `None.format(...)` at line 196 raises `AttributeError`
*outside* the `try` block: `generate_report_for_task` raises to its
caller instead of logging and returning an absent result. -/
theorem claim_C8_cex :
    generate_report_for_task ⟨none, some "m"⟩ (fun _ _ => some "r") "task text" =
        .error .attributeError ∧
      ∀ r, generate_report_for_task ⟨none, some "m"⟩ (fun _ _ => some "r") "task text" ≠
        .ok r := by
  have h0 : generate_report_for_task ⟨none, some "m"⟩ (fun _ _ => some "r") "task text" =
      .error .attributeError := rfl
  exact ⟨h0, fun r h => by rw [h0] at h; exact Except.noConfusion h⟩

/-- C8 (amended): a missing solution-prompt template makes
`generate_report_for_task` raise an `AttributeError` that propagates to
its caller; failures *inside* the guarded model-client call (including
its own configuration errors, which `generate_with_ollama` catches and
turns into an absent response) are logged and yield `None` instead. -/
theorem claim_C8 :
    (∀ (cfg : Config) (gen : String → Option String → Option String) (c : String),
      cfg.promptCode = none →
        generate_report_for_task cfg gen c = .error .attributeError) ∧
    (∀ (cfg : Config) (gen : String → Option String → Option String) (c tmpl p : String),
      cfg.promptCode = some tmpl → pyFormat tmpl c = .ok p →
        gen p cfg.modelSolution = none →
        generate_report_for_task cfg gen c = .ok none) := by
  constructor
  · intro cfg gen c h
    unfold generate_report_for_task
    rw [h]
  · intro cfg gen c tmpl p hc hf hg
    unfold generate_report_for_task
    simp only [hc, hf, hg]

/-- Witness for C8: a missing template raises; a failing model call with
a present template returns `None`. -/
theorem claim_C8_witness :
    generate_report_for_task ⟨none, none⟩ (fun _ _ => some "r") "t" =
        .error .attributeError ∧
      generate_report_for_task ⟨some "{task_content}", some "m"⟩ (fun _ _ => none) "t" =
        .ok none := by
  constructor
  · exact claim_C8.1 ⟨none, none⟩ (fun _ _ => some "r") "t" rfl
  · exact claim_C8.2 ⟨some "{task_content}", some "m"⟩ (fun _ _ => none) "t"
      "{task_content}" "t" rfl rfl rfl

/-! ## C9 -/

/-- When every report call returns (no exception), `process_task_files`
writes, for each file with a non-empty response, the cleaned response to
the `_task` → `_output` sibling path, in order, and finishes the loop. -/
theorem process_ok_writes (report : String → Except PyErr (Option String)) :
    ∀ files : List String, (∀ f ∈ files, ∃ r, report f = .ok r) →
      process_task_files report files =
        (files.filterMap (fun f =>
          match report f with
          | .ok (some s) =>
            if s = "" then none else some (pyReplace f "_task" "_output", cleanReport s)
          | _ => none), none) := by
  intro files
  induction files with
  | nil => intro _; rfl
  | cons f rest ih =>
    intro h
    obtain ⟨r, hr⟩ := h f (List.mem_cons_self f rest)
    have ih' := ih (fun g hg => h g (List.mem_cons_of_mem f hg))
    rw [List.filterMap_cons]
    unfold process_task_files
    rw [hr]
    cases r with
    | none => simpa using ih'
    | some s =>
      by_cases hs : s = ""
      · subst hs
        simpa using ih'
      · simp only [if_neg hs, ih']

/-- C9: for every non-empty report response, `process_task_files` trims
whitespace, strips a leading ```` ```markdown ```` fence and a trailing
```` ``` ```` fence when present (`cleanReport`), and writes the result
to the path with `_task` replaced by `_output`; in particular
` ```markdown\nHello\n``` ` is stored as exactly `"Hello"`. -/
theorem claim_C9 (report : String → Except PyErr (Option String)) (files : List String)
    (h : ∀ f ∈ files, ∃ r, report f = .ok r) :
    process_task_files report files =
        (files.filterMap (fun f =>
          match report f with
          | .ok (some s) =>
            if s = "" then none else some (pyReplace f "_task" "_output", cleanReport s)
          | _ => none), none) ∧
      cleanReport "```markdown\nHello\n```" = "Hello" :=
  ⟨process_ok_writes report files h, by decide⟩

/-- Witness for C9 on a concrete fenced response. -/
theorem claim_C9_witness :
    process_task_files (fun _ => .ok (some "```markdown\nHello\n```"))
        ["2026-01-01_001_task.md"] =
      ([("2026-01-01_001_output.md", "Hello")], none) := by
  have h := (claim_C9 (fun _ => .ok (some "```markdown\nHello\n```"))
    ["2026-01-01_001_task.md"] (fun _ _ => ⟨some "```markdown\nHello\n```", rfl⟩)).1
  rw [h]
  decide

/-! ## C10 -/

/-- C10 counterexample: braces in the *task file content* do not reach
`str.format`'s parser — the argument is substituted verbatim — so a task
file containing `{`/`}` produces a successful report, not an exception. -/
theorem claim_C10_cex :
    generate_report_for_task ⟨some "Solve:\n{task_content}", some "m"⟩
        (fun _ _ => some "result") "module m { endmodule }" = .ok (some "result") ∧
      pyFormat "Solve:\n{task_content}" "module m { endmodule }" =
        .ok "Solve:\nmodule m { endmodule }" :=
  ⟨rfl, rfl⟩

/-- C10 (amended): it is a brace problem in the *template* (not in the
task content) that raises: when `PROMPT_CODE` interpolation fails, the
exception is raised outside the `try` of `generate_report_for_task`,
propagates into `process_task_files`, and aborts the whole batch — no
file is written and no remaining task file is processed. -/
theorem claim_C10 (cfg : Config) (gen : String → Option String → Option String)
    (rd : String → String) (f : String) (rest : List String) (tmpl : String) (e : PyErr)
    (hc : cfg.promptCode = some tmpl)
    (hf : pyFormat tmpl (rd f) = .error e) :
    process_task_files (fun x => generate_report_for_task cfg gen (rd x)) (f :: rest) =
      ([], some e) := by
  have hg : generate_report_for_task cfg gen (rd f) = .error e := by
    unfold generate_report_for_task
    simp only [hc, hf]
  unfold process_task_files
  simp only [hg]

/-- Witness for C10 with a template containing an unmatched `{`. -/
theorem claim_C10_witness :
    process_task_files
        (fun x => generate_report_for_task ⟨some "Solve \x7b", some "m"⟩
          (fun _ _ => some "r") ((fun _ => "content") x)) ["a_task.md", "b_task.md"] =
      ([], some .valueError) :=
  claim_C10 ⟨some "Solve \x7b", some "m"⟩ (fun _ _ => some "r") (fun _ => "content")
    "a_task.md" ["b_task.md"] "Solve \x7b" .valueError rfl rfl
